import Mathlib

/-!
Verification of the multi-agent coordinator/state-manager core.

This file shallowly embeds the Python sources of the repository
(`agents/coordinator_agent.py`, `agents/text_agent.py`,
`agents/vision_agent.py`, `agents/base_agent.py`,
`utils/state_manager.py`) into Lean: Python strings become `String`,
Streamlit session state becomes an explicit `SessionState` record that is
threaded through every operation, the generative-model client (an external
collaborator per the design) becomes a record of functions returning
`Except String String`, where `Except.error e` models the call raising an
exception with message `e`.  UI logging (`st.write`) has no effect on the
modelled state and is omitted.
-/

namespace MultiAgent

/-! ## Python string primitives -/

/-- ASCII whitespace characters removed by Python `str.strip()` (the
sources only ever test blankness of user text). -/
def pyIsSpace (c : Char) : Bool :=
  c = ' ' || c = '\t' || c = '\n' || c = '\r' ||
    c = Char.ofNat 11 || c = Char.ofNat 12

/-- Python truthiness of `s.strip()` negated: `not s.strip()` holds iff
every character of `s` is whitespace (including the empty string). -/
def isBlankStr (s : String) : Bool :=
  s.data.all pyIsSpace

/-- Python `str.lower()` (the keyword list is pure ASCII, so ASCII
lowercasing captures the comparisons the code performs). -/
def pyLower (s : String) : String :=
  String.mk (s.data.map Char.toLower)

/-- Does `hay` start with `needle`? (helper for Python `in`). -/
def startsWithList : List Char → List Char → Bool
  | [], _ => true
  | _ :: _, [] => false
  | a :: as, b :: bs => if a = b then startsWithList as bs else false

/-- Python substring test `needle in hay` on character lists. -/
def subList (needle : List Char) : List Char → Bool
  | [] => startsWithList needle []
  | b :: bs => startsWithList needle (b :: bs) || subList needle bs

/-- Python `needle in hay` on strings. -/
def strContainsSub (hay needle : String) : Bool :=
  subList needle.data hay.data

/-- Python slice `s[:n]` on strings. -/
def pyTake (n : Nat) (s : String) : String :=
  String.mk (s.data.take n)

/-- Python list slice `l[-n:]` for a non-negative `n`.  Note that in Python
`-0 = 0`, so `n = 0` yields the whole list, not the empty one. -/
def pySliceLast (n : Nat) (l : List α) : List α :=
  if n = 0 then l else l.drop (l.length - n)

/-! ## Data model (utils/state_manager.py) -/

/-- An opaque decoded-image handle; the core never inspects it. -/
structure ImageHandle where
  id : Nat
deriving DecidableEq

/-- One element of `st.session_state.uploaded_images`. -/
structure UploadedImage where
  timestamp : String
  image : ImageHandle
deriving DecidableEq

/-- One record of `st.session_state.conversation_history`
(see `StateManager.add_to_history`). -/
structure Interaction where
  timestamp : String
  user_input : String
  agent_response : String
  agent_type : String
  has_image : Bool
deriving DecidableEq

/-- The dictionary built by `CoordinatorAgent._get_routing_info`. -/
structure RoutingInfo where
  input_type : String
  has_image : Bool
  agents_used : List String
  processing_mode : String
deriving DecidableEq

/-- One per-agent state dictionary inside
`st.session_state.agent_states`; `none` models an absent key. -/
structure AgentFields where
  active : Option Bool := none
  last_response : Option String := none
  last_decision : Option String := none
  last_routing : Option RoutingInfo := none
deriving DecidableEq

/-- Python `dict.update`: fields present in `new` win, the rest keep
their old value. -/
def AgentFields.merge (old new : AgentFields) : AgentFields where
  active := match new.active with | some v => some v | none => old.active
  last_response := match new.last_response with | some v => some v | none => old.last_response
  last_decision := match new.last_decision with | some v => some v | none => old.last_decision
  last_routing := match new.last_routing with | some v => some v | none => old.last_routing

/-- The `st.session_state.agent_states` dictionary, as an association
list (its keys are fixed at session start and never added to). -/
structure AgentStates where
  entries : List (String × AgentFields)
deriving DecidableEq

/-- Python `agent_name in st.session_state.agent_states`. -/
def AgentStates.hasKey (s : AgentStates) (name : String) : Bool :=
  s.entries.any (fun p => p.1 == name)

/-- `StateManager.update_agent_state`: merge-update the named entry if
the key exists, otherwise do nothing (the guard in the source). -/
def update_agent_state (s : AgentStates) (name : String) (data : AgentFields) : AgentStates :=
  if s.hasKey name then
    ⟨s.entries.map (fun p => if p.1 == name then (p.1, p.2.merge data) else p)⟩
  else s

/-- `StateManager.get_agent_state`: `dict.get(name, {})`. -/
def get_agent_state (s : AgentStates) (name : String) : AgentFields :=
  match s.entries.find? (fun p => p.1 == name) with
  | some p => p.2
  | none => {}

/-- The whole Streamlit session state, made explicit. -/
structure SessionState where
  conversation_history : List Interaction
  current_context : String
  uploaded_images : List UploadedImage
  agent_states : AgentStates
deriving DecidableEq

/-- `StateManager.initialize_session_state`: the three agent entries
created at session start. -/
def initial_agent_states : AgentStates :=
  ⟨[("text_agent", { active := some true, last_response := some "" }),
    ("vision_agent", { active := some true, last_response := some "" }),
    ("coordinator", { active := some true, last_decision := some "" })]⟩

/-- The session state right after `StateManager.initialize_session_state`. -/
def initial_session : SessionState :=
  { conversation_history := []
    current_context := ""
    uploaded_images := []
    agent_states := initial_agent_states }

/-- The concatenation step of `StateManager.update_context`: newline
separator when the buffer is non-empty, else the new content alone. -/
def context_concat (ctx new_context : String) : String :=
  if ctx ≠ "" then ctx ++ "\n" ++ new_context else new_context

/-- `StateManager.update_context`: concatenate, then keep only the last
1000 characters (Python `s[-1000:]`) when the result is longer. -/
def update_context (ctx new_context : String) : String :=
  if (context_concat ctx new_context).length > 1000 then
    String.mk ((context_concat ctx new_context).data.drop
      ((context_concat ctx new_context).data.length - 1000))
  else context_concat ctx new_context

/-- `StateManager.update_context` acting on the whole session state. -/
def sm_update_context (st : SessionState) (new_context : String) : SessionState :=
  { st with current_context := update_context st.current_context new_context }

/-- `StateManager.add_to_history` (the timestamp is supplied by the
clock of the caller). -/
def add_to_history (st : SessionState) (timestamp user_input agent_response agent_type : String)
    (image_data : Option ImageHandle) : SessionState :=
  { st with conversation_history := st.conversation_history ++
      [{ timestamp := timestamp, user_input := user_input, agent_response := agent_response,
         agent_type := agent_type, has_image := image_data.isSome }] }

/-- `StateManager.get_recent_history`:
`history[-limit:] if history else []`. -/
def get_recent_history (hist : List Interaction) (limit : Nat) : List Interaction :=
  if hist.isEmpty then [] else pySliceLast limit hist

/-- `StateManager.add_uploaded_image`. -/
def add_uploaded_image (st : SessionState) (timestamp : String) (image : ImageHandle) : SessionState :=
  { st with uploaded_images := st.uploaded_images ++ [{ timestamp := timestamp, image := image }] }

/-- `StateManager.get_latest_image`: the tail of the uploaded-image
list, if any. -/
def get_latest_image (st : SessionState) : Option ImageHandle :=
  match st.uploaded_images.getLast? with
  | some r => some r.image
  | none => none

/-! ## Generation Gateway (external collaborator, §6 of the design)

The generative-model client is external: the core only depends on its
contract — a call either returns generated text or fails.  `Except.error e`
models the call raising an exception whose `str(e)` is `e`. -/

structure GenClient where
  generate_text_response : String → String → Except String String
  generate_vision_response : String → ImageHandle → String → Except String String

/-- `BaseAgent.update_state`: the role-state key is derived from the
display name of the agent by lowercasing and replacing spaces with underscores. -/
def agent_key (name : String) : String :=
  String.mk ((pyLower name).data.map (fun c => if c = ' ' then '_' else c))

/-- `BaseAgent.update_state` acting on the session state. -/
def base_update_state (st : SessionState) (name : String) (data : AgentFields) : SessionState :=
  { st with agent_states := update_agent_state st.agent_states (agent_key name) data }

/-! ## Text Role (agents/text_agent.py) -/

/-- The fixed instruction at the head of `TextAgent._enhance_prompt`. -/
def text_base_instruction : String :=
  "You are a helpful AI assistant specializing in text-based interactions. \n        Provide clear, accurate, and contextually relevant responses. If you need more information to give a better answer, ask clarifying questions."

/-- `TextAgent._enhance_prompt`. -/
def enhance_prompt (user_input context : String) : String :=
  if context ≠ "" then
    text_base_instruction ++ "\n\nConversation Context:\n" ++ context ++ "\n\nUser Query: " ++ user_input
  else
    text_base_instruction ++ "\n\nUser Query: " ++ user_input

/-- `TextAgent.process`.  The `image_data` argument is accepted and
ignored, exactly as in the source.  On gateway failure the error string
is returned and only the own state entry of the role is written. -/
def text_process (client : GenClient) (st : SessionState) (user_input : String)
    (image_data : Option ImageHandle) : String × SessionState :=
  let _ := image_data
  let context := st.current_context
  let enhanced_prompt := enhance_prompt user_input context
  match client.generate_text_response enhanced_prompt context with
  | Except.ok response =>
      let st1 := base_update_state st "Text Agent" { last_response := some response, active := some true }
      let st2 := sm_update_context st1
        ("User asked: " ++ user_input ++ "\nAgent responded: " ++ pyTake 200 response ++ "...")
      (response, st2)
  | Except.error e =>
      let error_msg := "Error processing text input: " ++ e
      (error_msg, base_update_state st "Text Agent" { last_response := some error_msg, active := some false })

/-! ## Vision Role (agents/vision_agent.py) -/

/-- The fixed instruction at the head of `VisionAgent._enhance_vision_prompt`. -/
def vision_base_instruction : String :=
  "You are a specialized vision AI assistant. Analyze the provided image carefully and respond to the user\u0027s query with detailed, accurate observations. \n        Focus on visual elements, objects, people, text, colors, composition, and any relevant details that address the user\u0027s question."

/-- `VisionAgent._enhance_vision_prompt` (blank user text is replaced
by the default description request). -/
def enhance_vision_prompt (user_input context : String) : String :=
  let user_input := if isBlankStr user_input then "Please describe this image in detail." else user_input
  if context ≠ "" then
    vision_base_instruction ++ "\n\nConversation Context:\n" ++ context ++ "\n\nUser Query about the image: " ++ user_input
  else
    vision_base_instruction ++ "\n\nUser Query about the image: " ++ user_input

/-- The fixed message returned when no image is available. -/
def no_image_msg : String :=
  "No image provided. Please upload an image for visual analysis."

/-- `VisionAgent.process`.  With no image argument it falls back to the
most recently uploaded image; with none available it returns the fixed
message and the state untouched.  `VisionAgent._process_image` is the
identity here: the core consumes an already-decoded image handle and
image normalization is delegated to an external collaborator (design §1,
§4.3). -/
def vision_process (client : GenClient) (st : SessionState) (user_input : String)
    (image_data : Option ImageHandle) : String × SessionState :=
  let image_data := match image_data with
    | none => get_latest_image st
    | some i => some i
  match image_data with
  | none => (no_image_msg, st)
  | some img =>
      let context := st.current_context
      let enhanced_prompt := enhance_vision_prompt user_input context
      match client.generate_vision_response enhanced_prompt img context with
      | Except.ok response =>
          let st1 := base_update_state st "Vision Agent" { last_response := some response, active := some true }
          let st2 := sm_update_context st1
            ("User asked about image: " ++ user_input ++ "\nVision analysis: " ++ pyTake 200 response ++ "...")
          (response, st2)
      | Except.error e =>
          let error_msg := "Error processing image: " ++ e
          (error_msg, base_update_state st "Vision Agent" { last_response := some error_msg, active := some false })

/-! ## Coordinator (agents/coordinator_agent.py) -/

/-- The fixed keyword list of `CoordinatorAgent._determine_input_type`. -/
def image_keywords : List String :=
  ["image", "picture", "photo", "see", "look", "visual", "describe",
   "analyze", "identify", "what is", "what are"]

/-- `any(keyword in user_input.lower() for keyword in image_keywords)`. -/
def keyword_in_text (user_input : String) : Bool :=
  image_keywords.any (fun k => strContainsSub (pyLower user_input) k)

/-- `CoordinatorAgent._determine_input_type`. -/
def determine_input_type (user_input : String) (has_image : Bool) : String :=
  if has_image then
    if keyword_in_text user_input || isBlankStr user_input then "vision_primary"
    else "vision_with_text"
  else "text_only"

/-- The augmented prompt built in the `vision_with_text` branch of
`CoordinatorAgent._route_request`. -/
def enhanced_query (vision_response user_input : String) : String :=
  "Based on this image analysis: " ++ vision_response ++ "\n\nUser\u0027s additional question: " ++ user_input

/-- The synthesis prompt of `CoordinatorAgent._combine_responses`
(an f-string, transcribed with its indentation). -/
def synthesis_prompt (original_query vision_response text_response : String) : String :=
  "\n        Original user query: " ++ original_query ++
  "\n        \n        Vision Agent Analysis: " ++ vision_response ++
  "\n        \n        Text Agent Response: " ++ text_response ++
  "\n        \n        Please provide a coherent, comprehensive response that combines the visual analysis with the textual reasoning to best answer the user\u0027s query.\n        "

/-- `CoordinatorAgent._combine_responses`: a direct gateway text call
(context defaulting to `\"\"`); on failure the deterministic fallback
concatenation. -/
def combine_responses (client : GenClient) (vision_response text_response original_query : String) : String :=
  match client.generate_text_response (synthesis_prompt original_query vision_response text_response) "" with
  | Except.ok synthesized => "**Comprehensive Analysis:**\n\n" ++ synthesized
  | Except.error _ =>
      "**Visual Analysis:**\n" ++ vision_response ++ "\n\n**Additional Analysis:**\n" ++ text_response

/-- `CoordinatorAgent._get_agents_used`. -/
def get_agents_used (input_type : String) : List String :=
  if input_type = "text_only" then ["Text Agent"]
  else if input_type = "vision_primary" then ["Vision Agent"]
  else if input_type = "vision_with_text" then ["Vision Agent", "Text Agent"]
  else []

/-- `CoordinatorAgent._get_routing_info`. -/
def get_routing_info (input_type : String) (has_image : Bool) : RoutingInfo :=
  { input_type := input_type
    has_image := has_image
    agents_used := get_agents_used input_type
    processing_mode := input_type }

/-- Ghost trace of the calls the coordinator issues during one turn,
used to state invocation-order and invocation-count properties. -/
inductive Event where
  | visionCall (user_input : String) (image : Option ImageHandle)
  | textCall (user_input : String) (image : Option ImageHandle)
  | synthesisCall (prompt : String)
deriving DecidableEq

/-- Is this a Vision Role invocation? -/
def Event.isVision : Event → Bool
  | visionCall _ _ => true
  | _ => false

/-- Is this a Text Role invocation? -/
def Event.isText : Event → Bool
  | textCall _ _ => true
  | _ => false

/-- `CoordinatorAgent._route_request`, instrumented with the ghost call
trace (third component).  The unused `has_image` parameter of the source
is kept. -/
def route_request (client : GenClient) (st : SessionState) (user_input : String)
    (image_data : Option ImageHandle) (input_type : String) (has_image : Bool) :
    String × SessionState × List Event :=
  let _ := has_image
  if input_type = "text_only" then
    let r := text_process client st user_input image_data
    (r.1, r.2, [Event.textCall user_input image_data])
  else if input_type = "vision_primary" then
    let r := vision_process client st user_input image_data
    (r.1, r.2, [Event.visionCall user_input image_data])
  else if input_type = "vision_with_text" then
    let v := vision_process client st user_input image_data
    let eq := enhanced_query v.1 user_input
    let t := text_process client v.2 eq none
    let combined := combine_responses client v.1 t.1 user_input
    (combined, t.2,
      [Event.visionCall user_input image_data, Event.textCall eq none,
       Event.synthesisCall (synthesis_prompt user_input v.1 t.1)])
  else
    ("Unable to determine how to process this request.", st, [])

/-- The `try` body of `CoordinatorAgent.process`: classify, route, then
record the decision through `BaseAgent.update_state`.  In this embedding
every gateway failure is already caught inside the roles and the
synthesis step, so the body is total. -/
def coordinator_process (client : GenClient) (st : SessionState) (user_input : String)
    (image_data : Option ImageHandle) : String × SessionState × List Event :=
  let has_image := image_data.isSome
  let input_type := determine_input_type user_input has_image
  let r := route_request client st user_input image_data input_type has_image
  let st2 := base_update_state r.2.1 "Coordinator Agent"
    { last_decision := some input_type, active := some true,
      last_routing := some (get_routing_info input_type has_image) }
  (r.1, st2, r.2.2)

/-- The `except` branch of `CoordinatorAgent.process`, as a function of
the message `e` of the raised exception and the state at the moment of the
failure: return the coordinator-error string and attempt the
`last_decision = error, active = False` state write. -/
def coordinator_handle_failure (st : SessionState) (e : String) : String × SessionState :=
  ("Coordinator error: " ++ e,
   base_update_state st "Coordinator Agent" { last_decision := some "error", active := some false })

/-! ## Concrete gateway stubs and sample data used by witnesses -/

/-- A gateway stub whose calls always succeed with the fixed reply. -/
def okClient : GenClient where
  generate_text_response := fun _ _ => Except.ok "fine"
  generate_vision_response := fun _ _ _ => Except.ok "fine"

/-- A gateway stub whose calls always raise (message `down`). -/
def failClient : GenClient where
  generate_text_response := fun _ _ => Except.error "down"
  generate_vision_response := fun _ _ _ => Except.error "down"

/-- A sample interaction record. -/
def sample_interaction : Interaction :=
  { timestamp := "t0", user_input := "hi", agent_response := "fine",
    agent_type := "text", has_image := false }

/-- A fresh session into which one image has been uploaded. -/
def session_with_image : SessionState :=
  add_uploaded_image initial_session "t1" ⟨7⟩

/-! ## Helper lemmas -/

/-- `startsWithList` decides the there-is-a-suffix property. -/
theorem startsWithList_iff (n h : List Char) :
    startsWithList n h = true ↔ ∃ rest, h = n ++ rest := by
  induction n generalizing h with
  | nil =>
      simp [startsWithList]
  | cons a as ih =>
      cases h with
      | nil =>
          simp [startsWithList]
      | cons b bs =>
          by_cases hab : a = b
          · subst hab
            simp [startsWithList, ih]
          · simp only [startsWithList, if_neg hab, Bool.false_eq_true, false_iff]
            rintro ⟨rest, hr⟩
            injection hr with h1 _
            exact hab h1.symm

/-- `subList` decides Python substring containment. -/
theorem subList_iff (n h : List Char) :
    subList n h = true ↔ ∃ pre post, h = pre ++ n ++ post := by
  induction h with
  | nil =>
      rw [subList, startsWithList_iff]
      constructor
      · rintro ⟨rest, hr⟩
        exact ⟨[], rest, by simpa using hr⟩
      · rintro ⟨pre, post, hp⟩
        have h0 : pre ++ n ++ post = [] := hp.symm
        rcases List.append_eq_nil.mp h0 with ⟨h1, h2⟩
        rcases List.append_eq_nil.mp h1 with ⟨_, h3⟩
        exact ⟨[], by simp [h3]⟩
  | cons b bs ih =>
      rw [subList, Bool.or_eq_true, startsWithList_iff, ih]
      constructor
      · rintro (⟨rest, hr⟩ | ⟨pre, post, hp⟩)
        · exact ⟨[], rest, by simpa using hr⟩
        · exact ⟨b :: pre, post, by simp [hp]⟩
      · rintro ⟨pre, post, hp⟩
        cases pre with
        | nil =>
            exact Or.inl ⟨post, by simpa using hp⟩
        | cons x xs =>
            injection hp with h1 h2
            exact Or.inr ⟨xs, post, h2⟩

/-- `strContainsSub` decides substring containment on strings. -/
theorem strContainsSub_iff (hay needle : String) :
    strContainsSub hay needle = true ↔
      ∃ pre post, hay.data = pre ++ needle.data ++ post :=
  subList_iff needle.data hay.data

/-- The character list underlying a packed string. -/
theorem string_data_mk (l : List Char) : (String.mk l).data = l := rfl

/-- One `update_context` step never leaves more than 1000 characters. -/
theorem update_context_length_le (ctx nc : String) :
    (update_context ctx nc).length ≤ 1000 := by
  unfold update_context
  split
  · next hgt =>
      have : (context_concat ctx nc).length = (context_concat ctx nc).data.length := rfl
      simp only [String.length, List.length_drop]
      omega
  · next hle =>
      omega

/-- The rolling-context cap is an invariant of any append sequence. -/
theorem foldl_update_context_le (appends : List String) (s : String)
    (hs : s.length ≤ 1000) :
    (List.foldl update_context s appends).length ≤ 1000 := by
  induction appends generalizing s with
  | nil => simpa using hs
  | cons a as ih => exact ih _ (update_context_length_le s a)

/-! ## Claims -/

/-- C1: for every `Coordinator.process` input, the classification is
`text_only` when no image is present; `vision_primary` when an image is
present and the text is blank or its lowercasing contains one of the
fixed keywords as a substring; `vision_with_text` when an image is
present, the text is non-blank, and no keyword occurs as a substring. -/
theorem C1_classification (user_text : String) (image : Option ImageHandle) :
    (image = none → determine_input_type user_text image.isSome = "text_only") ∧
    (image.isSome = true →
      (isBlankStr user_text = true ∨
        ∃ k ∈ image_keywords, ∃ pre post, (pyLower user_text).data = pre ++ k.data ++ post) →
      determine_input_type user_text image.isSome = "vision_primary") ∧
    (image.isSome = true → isBlankStr user_text = false →
      (∀ k ∈ image_keywords, ∀ pre post, (pyLower user_text).data ≠ pre ++ k.data ++ post) →
      determine_input_type user_text image.isSome = "vision_with_text") := by
  refine ⟨?_, ?_, ?_⟩
  · intro h
    subst h
    rfl
  · intro hsome hcond
    have hc : (keyword_in_text user_text || isBlankStr user_text) = true := by
      rcases hcond with hb | ⟨k, hk, pre, post, hp⟩
      · simp [hb]
      · have hsub : strContainsSub (pyLower user_text) k = true :=
          (strContainsSub_iff _ _).mpr ⟨pre, post, hp⟩
        have hkw : keyword_in_text user_text = true := by
          unfold keyword_in_text
          rw [List.any_eq_true]
          exact ⟨k, hk, hsub⟩
        simp [hkw]
    simp [determine_input_type, hsome, hc]
  · intro hsome hbl hker
    have hkw : keyword_in_text user_text = false := by
      unfold keyword_in_text
      rw [List.any_eq_false]
      intro k hk
      intro hsub
      rcases (strContainsSub_iff _ _).mp hsub with ⟨pre, post, hp⟩
      exact hker k hk pre post hp
    simp [determine_input_type, hsome, hkw, hbl]

/-- C1 witness: an image plus text whose lowercasing contains the
keyword `what is` classifies as `vision_primary`. -/
theorem C1_witness :
    determine_input_type "What IS this photo?" true = "vision_primary" :=
  (C1_classification "What IS this photo?" (some ⟨0⟩)).2.1 rfl
    (Or.inr ⟨"what is", by decide, [], (" this photo?").data, by decide⟩)

/-- C5: starting from an empty buffer, the rolling context never
exceeds 1000 characters; one append concatenates with a newline
separator exactly when the buffer is non-empty, and the stored buffer is
the trailing 1000-character suffix of that concatenation (the whole
concatenation when it fits). -/
theorem C5_rolling_context (appends : List String) (ctx new_context : String) :
    (List.foldl update_context "" appends).length ≤ 1000 ∧
    context_concat ctx new_context =
      (if ctx = "" then new_context else ctx ++ "\n" ++ new_context) ∧
    (update_context ctx new_context).data =
      (context_concat ctx new_context).data.drop
        ((context_concat ctx new_context).data.length - 1000) ∧
    (update_context ctx new_context).data <:+ (context_concat ctx new_context).data ∧
    (update_context ctx new_context).length = min (context_concat ctx new_context).length 1000 := by
  refine ⟨foldl_update_context_le appends "" (by simp), ?_, ?_, ?_, ?_⟩
  · unfold context_concat
    by_cases h : ctx = "" <;> simp [h]
  · unfold update_context
    split
    · next hgt => exact string_data_mk _
    · next hle =>
        have : (context_concat ctx new_context).length =
            (context_concat ctx new_context).data.length := rfl
        have h0 : (context_concat ctx new_context).data.length - 1000 = 0 := by omega
        rw [h0, List.drop_zero]
  · unfold update_context
    split
    · next hgt =>
        rw [string_data_mk]
        exact List.drop_suffix _ _
    · next hle => exact List.suffix_refl _
  · unfold update_context
    have hlen : (context_concat ctx new_context).length =
        (context_concat ctx new_context).data.length := rfl
    split
    · next hgt =>
        simp only [String.length, string_data_mk, List.length_drop]
        omega
    · next hle =>
        omega

/-- C6 counterexample: with one record in the log, `getRecentHistory 0`
returns the whole log (Python `l[-0:]` is `l[0:]`), so the result has
more than `n = 0` records. -/
theorem C6_counterexample :
    ¬ ((get_recent_history [sample_interaction] 0).length ≤ 0) := by decide

/-- C6 amended: for every `n ≥ 1`, `getRecentHistory n` returns at most
`n` records, a contiguous suffix of the log (hence in insertion order),
and when the log is non-empty the most recently added record is last. -/
theorem C6_recent_history (hist : List Interaction) (n : Nat) (hn : 1 ≤ n) :
    (get_recent_history hist n).length ≤ n ∧
    (get_recent_history hist n) <:+ hist ∧
    (hist ≠ [] → (get_recent_history hist n).getLast? = hist.getLast?) := by
  have hn0 : ¬ (n = 0) := by omega
  rcases hist with _ | ⟨a, as⟩
  · simp [get_recent_history]
  · have h1 : get_recent_history (a :: as) n = (a :: as).drop ((a :: as).length - n) := by
      simp [get_recent_history, pySliceLast, hn0]
    rw [h1]
    refine ⟨?_, List.drop_suffix _ _, ?_⟩
    · simp only [List.length_drop]
      omega
    · intro _
      have hd : (a :: as).drop ((a :: as).length - n) ≠ [] := by
        rw [Ne, List.drop_eq_nil_iff]
        simp only [List.length_cons]
        omega
      calc ((a :: as).drop ((a :: as).length - n)).getLast?
          = ((a :: as).take ((a :: as).length - n) ++
              (a :: as).drop ((a :: as).length - n)).getLast? :=
            (List.getLast?_append_of_ne_nil _ hd).symm
        _ = (a :: as).getLast? := by rw [List.take_append_drop]

/-- C6 witness: the amended claim evaluated on a one-record log with
`n = 1`. -/
theorem C6_witness :
    (get_recent_history [sample_interaction] 1).length ≤ 1 ∧
    (get_recent_history [sample_interaction] 1).getLast? = [sample_interaction].getLast? :=
  ⟨(C6_recent_history [sample_interaction] 1 (by decide)).1,
   (C6_recent_history [sample_interaction] 1 (by decide)).2.2 (by decide)⟩

/-- C2 (code bug): after a normal `Coordinator.process` turn the
classification is not recorded.  `BaseAgent.update_state` derives the
key `coordinator_agent` from the display name `Coordinator Agent`, but
the session dictionary only has the key `coordinator`, so
`StateManager.update_agent_state` silently skips the write and the
stored coordinator state keeps `last_decision = \"\"` instead of the
turn classification `text_only`. -/
theorem C2_decision_not_recorded :
    determine_input_type "hello" false = "text_only" ∧
    agent_key "Coordinator Agent" = "coordinator_agent" ∧
    initial_agent_states.hasKey "coordinator_agent" = false ∧
    get_agent_state
        (coordinator_process okClient initial_session "hello" none).2.1.agent_states
        "coordinator" =
      { active := some true, last_decision := some "" } := by decide

/-- C3 (code bug): the `except` branch of `Coordinator.process` does
return the `Coordinator error: `-prefixed string (and in this embedding
every path of the `try` body is total, so a string is always returned),
but its `active = False, last_decision = error` write targets the
missing key `coordinator_agent` and is a silent no-op: the session
state, including the stored coordinator entry, is exactly the one at
the moment of failure. -/
theorem C3_failure_handler_state_noop :
    (coordinator_handle_failure initial_session "boom").1 = "Coordinator error: boom" ∧
    (coordinator_handle_failure initial_session "boom").2 = initial_session ∧
    get_agent_state (coordinator_handle_failure initial_session "boom").2.agent_states
        "coordinator" =
      { active := some true, last_decision := some "" } := by decide

/-- C4: on a `vision_with_text` turn the coordinator invokes the Vision
Role first with the original text and image, then the Text Role exactly
once with the augmented prompt embedding the vision answer and the
original question (and no image), then attempts a synthesis; each role
is invoked exactly once. -/
theorem C4_vision_with_text_flow (client : GenClient) (st : SessionState) (u : String)
    (img : ImageHandle) (h : determine_input_type u true = "vision_with_text") :
    (coordinator_process client st u (some img)).2.2 =
      [Event.visionCall u (some img),
       Event.textCall (enhanced_query (vision_process client st u (some img)).1 u) none,
       Event.synthesisCall (synthesis_prompt u (vision_process client st u (some img)).1
         (text_process client (vision_process client st u (some img)).2
            (enhanced_query (vision_process client st u (some img)).1 u) none).1)] ∧
    (coordinator_process client st u (some img)).2.2.countP Event.isVision = 1 ∧
    (coordinator_process client st u (some img)).2.2.countP Event.isText = 1 := by
  have hev : (coordinator_process client st u (some img)).2.2 =
      [Event.visionCall u (some img),
       Event.textCall (enhanced_query (vision_process client st u (some img)).1 u) none,
       Event.synthesisCall (synthesis_prompt u (vision_process client st u (some img)).1
         (text_process client (vision_process client st u (some img)).2
            (enhanced_query (vision_process client st u (some img)).1 u) none).1)] := by
    simp [coordinator_process, route_request, h]
  refine ⟨hev, ?_, ?_⟩ <;>
    rw [hev] <;>
    simp [List.countP_cons, Event.isVision, Event.isText]

/-- C4 witness: the flow evaluated on a concrete non-keyword, non-blank
query with an image. -/
theorem C4_witness :
    (coordinator_process okClient initial_session "hello" (some ⟨0⟩)).2.2.countP
        Event.isVision = 1 ∧
    (coordinator_process okClient initial_session "hello" (some ⟨0⟩)).2.2.countP
        Event.isText = 1 :=
  ⟨(C4_vision_with_text_flow okClient initial_session "hello" ⟨0⟩ (by decide)).2.1,
   (C4_vision_with_text_flow okClient initial_session "hello" ⟨0⟩ (by decide)).2.2⟩

/-- C7: if the synthesis gateway call fails for any reason the combined
answer is the deterministic two-section fallback concatenation, and on
success it is the fixed banner followed by the synthesized text; the
fallback is a total string construction. -/
theorem C7_synthesis_fallback (client : GenClient) (v t q : String) :
    (∀ e, client.generate_text_response (synthesis_prompt q v t) "" = Except.error e →
      combine_responses client v t q =
        "**Visual Analysis:**\n" ++ v ++ "\n\n**Additional Analysis:**\n" ++ t) ∧
    (∀ s, client.generate_text_response (synthesis_prompt q v t) "" = Except.ok s →
      combine_responses client v t q = "**Comprehensive Analysis:**\n\n" ++ s) := by
  constructor
  · intro e he
    unfold combine_responses
    rw [he]
  · intro s hs
    unfold combine_responses
    rw [hs]

/-- C7 witness: the fallback and banner cases on concrete gateway
stubs. -/
theorem C7_witness :
    combine_responses failClient "V" "T" "Q" =
      "**Visual Analysis:**\nV\n\n**Additional Analysis:**\nT" ∧
    combine_responses okClient "V" "T" "Q" = "**Comprehensive Analysis:**\n\nfine" :=
  ⟨(C7_synthesis_fallback failClient "V" "T" "Q").1 "down" rfl,
   (C7_synthesis_fallback okClient "V" "T" "Q").2 "fine" rfl⟩

/-- C8: `VisionRole.process` without an image argument falls back to
the most recently uploaded image (the tail of the uploaded-image list);
if none is available it returns the fixed no-image message and leaves
the whole session state — in particular every RoleState entry —
unchanged. -/
theorem C8_vision_no_image (client : GenClient) (st : SessionState) (u : String) :
    get_latest_image st = (st.uploaded_images.getLast?).map UploadedImage.image ∧
    (get_latest_image st = none →
      vision_process client st u none = (no_image_msg, st)) ∧
    (∀ img, get_latest_image st = some img →
      vision_process client st u none = vision_process client st u (some img)) := by
  refine ⟨?_, ?_, ?_⟩
  · unfold get_latest_image
    cases st.uploaded_images.getLast? <;> rfl
  · intro h
    unfold vision_process
    rw [h]
  · intro img h
    unfold vision_process
    rw [h]

/-- C8 witness: the no-image message on a fresh session, and the
fallback to the uploaded image once one exists. -/
theorem C8_witness :
    vision_process okClient initial_session "hi" none = (no_image_msg, initial_session) ∧
    vision_process okClient session_with_image "hi" none =
      vision_process okClient session_with_image "hi" (some ⟨7⟩) :=
  ⟨(C8_vision_no_image okClient initial_session "hi").2.1 rfl,
   (C8_vision_no_image okClient session_with_image "hi").2.2 ⟨7⟩ rfl⟩

/-- C9: when the gateway call raises, `TextRole.process` and
`VisionRole.process` leave the rolling context, the interaction log and
the uploaded-image list unchanged, and write only `last_response` and
`active` into their own RoleState entry before returning the error
string. -/
theorem C9_generation_failure_frame (client : GenClient) (st : SessionState) (u : String)
    (imgArg : Option ImageHandle) (img : ImageHandle) (e1 e2 : String)
    (ht : client.generate_text_response (enhance_prompt u st.current_context)
        st.current_context = Except.error e1)
    (hv : client.generate_vision_response (enhance_vision_prompt u st.current_context) img
        st.current_context = Except.error e2) :
    ((text_process client st u imgArg).2.current_context = st.current_context ∧
     (text_process client st u imgArg).2.conversation_history = st.conversation_history ∧
     (text_process client st u imgArg).2.uploaded_images = st.uploaded_images ∧
     (text_process client st u imgArg).2.agent_states =
       update_agent_state st.agent_states "text_agent"
         { last_response := some ("Error processing text input: " ++ e1), active := some false } ∧
     (text_process client st u imgArg).1 = "Error processing text input: " ++ e1) ∧
    ((vision_process client st u (some img)).2.current_context = st.current_context ∧
     (vision_process client st u (some img)).2.conversation_history = st.conversation_history ∧
     (vision_process client st u (some img)).2.uploaded_images = st.uploaded_images ∧
     (vision_process client st u (some img)).2.agent_states =
       update_agent_state st.agent_states "vision_agent"
         { last_response := some ("Error processing image: " ++ e2), active := some false } ∧
     (vision_process client st u (some img)).1 = "Error processing image: " ++ e2) := by
  have hkt : agent_key "Text Agent" = "text_agent" := by decide
  have hkv : agent_key "Vision Agent" = "vision_agent" := by decide
  constructor
  · have h1 : text_process client st u imgArg =
        ("Error processing text input: " ++ e1,
         base_update_state st "Text Agent"
           { last_response := some ("Error processing text input: " ++ e1),
             active := some false }) := by
      simp only [text_process]
      rw [ht]
    rw [h1]
    unfold base_update_state
    rw [hkt]
    exact ⟨rfl, rfl, rfl, rfl, rfl⟩
  · have h2 : vision_process client st u (some img) =
        ("Error processing image: " ++ e2,
         base_update_state st "Vision Agent"
           { last_response := some ("Error processing image: " ++ e2),
             active := some false }) := by
      simp only [vision_process]
      rw [hv]
    rw [h2]
    unfold base_update_state
    rw [hkv]
    exact ⟨rfl, rfl, rfl, rfl, rfl⟩

/-- C9 witness: the frame conditions evaluated with the always-raising
gateway stub on a fresh session. -/
theorem C9_witness :
    (text_process failClient initial_session "q" none).2.current_context =
      initial_session.current_context ∧
    (vision_process failClient initial_session "q" (some ⟨1⟩)).2.conversation_history =
      initial_session.conversation_history ∧
    (text_process failClient initial_session "q" none).1 =
      "Error processing text input: down" :=
  ⟨(C9_generation_failure_frame failClient initial_session "q" none ⟨1⟩ "down" "down"
      rfl rfl).1.1,
   (C9_generation_failure_frame failClient initial_session "q" none ⟨1⟩ "down" "down"
      rfl rfl).2.2.1,
   (C9_generation_failure_frame failClient initial_session "q" none ⟨1⟩ "down" "down"
      rfl rfl).1.2.2.2.2⟩

/-- C10: for a role name that is not a key of the agent-state
dictionary — the initialized keys being exactly `text_agent`,
`vision_agent`, `coordinator` — `updateRoleState` is a silent no-op and
`getRoleState` returns the empty record. -/
theorem C10_unknown_role_noop (states : AgentStates) (name : String) (data : AgentFields)
    (h : states.hasKey name = false) :
    update_agent_state states name data = states ∧
    get_agent_state states name = ({} : AgentFields) ∧
    initial_agent_states.entries.map Prod.fst =
      ["text_agent", "vision_agent", "coordinator"] := by
  refine ⟨?_, ?_, by decide⟩
  · unfold update_agent_state
    rw [h]
    rfl
  · unfold get_agent_state
    have hf : states.entries.find? (fun p => p.1 == name) = none := by
      rw [List.find?_eq_none]
      intro p hp
      have hall := List.any_eq_false.mp h p hp
      simpa using hall
    rw [hf]

/-- C10 witness: the no-op evaluated at the (absent) key
`coordinator_agent` on the initial dictionary. -/
theorem C10_witness :
    update_agent_state initial_agent_states "coordinator_agent" { active := some false } =
      initial_agent_states ∧
    get_agent_state initial_agent_states "coordinator_agent" = ({} : AgentFields) ∧
    initial_agent_states.entries.map Prod.fst =
      ["text_agent", "vision_agent", "coordinator"] :=
  C10_unknown_role_noop initial_agent_states "coordinator_agent" { active := some false }
    (by decide)

end MultiAgent
